import Mathlib

/-!
Shallow embedding of the EnerJee dispatch core: the carbon-intensity model
(carbon_intensity.py), the LP model builders and post-solve reporting of the
single-day optimizer (optimization.py) and the multi-day optimizer
(multiday_optimization.py), the greedy baseline (greedy_baseline.py) and the
price-sensitivity sweep (sensitivity_analysis.py).  Machine reals are embedded
as exact rationals; the external LP solver (pulp + CBC) is modelled as an
oracle parameter returning a status and a variable assignment.
-/

namespace EnerJee

/-! ### carbon_intensity.py -/

/-- Base lifecycle emissions dictionary of get_carbon_intensity:
`base_emissions.get(source, 0)` — unknown sources default to 0. -/
def base_emissions (source : String) : ℚ :=
  if source = "solar" then 45
  else if source = "wind" then 12
  else if source = "hydro" then 24
  else 0

/-- Time-of-day multiplier chain of get_carbon_intensity (if/elif cascade on
the Python int hour). -/
def time_multiplier (hour : ℤ) : ℚ :=
  if 0 ≤ hour ∧ hour < 6 then 0.85
  else if 6 ≤ hour ∧ hour < 9 then 1.0
  else if 9 ≤ hour ∧ hour < 17 then 1.15
  else if 17 ≤ hour ∧ hour < 21 then 1.25
  else 0.95

/-- get_carbon_intensity(hour, source) = base_emissions.get(source, 0) * time_multiplier. -/
def get_carbon_intensity (hour : ℤ) (source : String) : ℚ :=
  base_emissions source * time_multiplier hour

/-! ### Forecast data model

A forecast row carries the columns the core reads: `datetime` (only its
`.hour` attribute is ever consulted), demand, the three availabilities and
price. -/

/-- One row of the forecast DataFrame, restricted to the read columns. -/
structure HourData where
  hour_of_day : ℤ
  demand : ℚ
  solar_available : ℚ
  wind_available : ℚ
  hydro_available : ℚ
  price : ℚ
deriving DecidableEq, Repr

/-! ### LP model AST

pulp decision variables of the two optimizers, affine expressions over them,
and the three constraint forms used (`<=`, `==`, `>=`). -/

/-- LP decision variables declared by both optimizers. -/
inductive Var where
  | solar (t : ℕ)
  | wind (t : ℕ)
  | hydro (t : ℕ)
  | bCharge (t : ℕ)
  | bDischarge (t : ℕ)
  | bLevel (t : ℕ)
  | unmet (t : ℕ)
deriving DecidableEq, Repr

/-- Affine expression: a list of (coefficient, variable) terms plus a constant. -/
structure AffExpr where
  terms : List (ℚ × Var)
  const : ℚ
deriving DecidableEq, Repr

def AffExpr.eval (x : Var → ℚ) (e : AffExpr) : ℚ :=
  (e.terms.map (fun p => p.1 * x p.2)).sum + e.const

def AffExpr.add (a b : AffExpr) : AffExpr :=
  ⟨a.terms ++ b.terms, a.const + b.const⟩

def AffExpr.smul (c : ℚ) (a : AffExpr) : AffExpr :=
  ⟨a.terms.map (fun p => (c * p.1, p.2)), c * a.const⟩

/-- One linear constraint, expression compared against a rational bound. -/
inductive Constr where
  | le (e : AffExpr) (b : ℚ)
  | eq (e : AffExpr) (b : ℚ)
  | ge (e : AffExpr) (b : ℚ)
deriving DecidableEq, Repr

def Constr.Holds (x : Var → ℚ) : Constr → Prop
  | .le e b => e.eval x ≤ b
  | .eq e b => e.eval x = b
  | .ge e b => b ≤ e.eval x

instance (x : Var → ℚ) (c : Constr) : Decidable (c.Holds x) := by
  cases c with
  | le e b => exact inferInstanceAs (Decidable (e.eval x ≤ b))
  | eq e b => exact inferInstanceAs (Decidable (e.eval x = b))
  | ge e b => exact inferInstanceAs (Decidable (b ≤ e.eval x))

/-- An assembled LP: horizon, battery capacity (the declared upper bound of the
battery_level variables), objective and the constraint list in insertion
order. -/
structure LPModel where
  hours : ℕ
  capacity : ℚ
  objective : AffExpr
  constraints : List Constr
deriving DecidableEq, Repr

/-- Feasibility: all listed constraints hold, and the declared variable bounds
hold (every variable has lowBound=0; battery_level additionally has
upBound=capacity and an index running to hours). -/
def LPModel.Feasible (m : LPModel) (x : Var → ℚ) : Prop :=
  (∀ c ∈ m.constraints, c.Holds x) ∧
  (∀ t < m.hours,
    0 ≤ x (.solar t) ∧ 0 ≤ x (.wind t) ∧ 0 ≤ x (.hydro t) ∧
    0 ≤ x (.bCharge t) ∧ 0 ≤ x (.bDischarge t) ∧ 0 ≤ x (.unmet t)) ∧
  (∀ t ≤ m.hours, 0 ≤ x (.bLevel t) ∧ x (.bLevel t) ≤ m.capacity)

instance (m : LPModel) (x : Var → ℚ) : Decidable (m.Feasible x) := by
  unfold LPModel.Feasible
  infer_instance

/-! ### optimization.py — model construction (lines 22-134) -/

/-- Emission factors dictionary shared verbatim by optimization.py,
multiday_optimization.py and greedy_baseline.py. -/
def emission_factors (source : String) : ℚ :=
  if source = "solar" then 45
  else if source = "wind" then 12
  else if source = "hydro" then 24
  else 0

/-- Hourly cost term of the objective: solar*price*0.5 + wind*price*0.6 +
hydro*price*0.7 (lines 64-68). -/
def hourCost (t : ℕ) (h : HourData) : AffExpr :=
  ⟨[(h.price * 0.5, .solar t), (h.price * 0.6, .wind t), (h.price * 0.7, .hydro t)], 0⟩

/-- Hourly emission term of the objective, intensity chosen by the
use_time_varying_carbon flag (lines 71-86). -/
def hourEmissions (tv : Bool) (t : ℕ) (h : HourData) : AffExpr :=
  let solar_intensity := if tv then get_carbon_intensity h.hour_of_day "solar" else emission_factors "solar"
  let wind_intensity := if tv then get_carbon_intensity h.hour_of_day "wind" else emission_factors "wind"
  let hydro_intensity := if tv then get_carbon_intensity h.hour_of_day "hydro" else emission_factors "hydro"
  ⟨[(solar_intensity, .solar t), (wind_intensity, .wind t), (hydro_intensity, .hydro t)], 0⟩

/-- Constraints added for hour t of optimize_energy_mix (lines 102-134), in
insertion order: demand balance, three availability caps, battery dynamics,
charge rate, discharge rate, no-simultaneous cap. -/
def hourConstraints (battery_capacity : ℚ) (t : ℕ) (h : HourData) : List Constr :=
  [ .eq ⟨[(1, .solar t), (1, .wind t), (1, .hydro t),
          (1, .bDischarge t), (-1, .bCharge t), (1, .unmet t)], 0⟩ h.demand,
    .le ⟨[(1, .solar t)], 0⟩ h.solar_available,
    .le ⟨[(1, .wind t)], 0⟩ h.wind_available,
    .le ⟨[(1, .hydro t)], 0⟩ h.hydro_available,
    .eq ⟨[(1, .bLevel (t + 1)), (-1, .bLevel t), (-(0.9 : ℚ), .bCharge t), (1, .bDischarge t)], 0⟩ 0,
    .le ⟨[(1, .bCharge t)], 0⟩ (battery_capacity * 0.2),
    .le ⟨[(1, .bDischarge t)], 0⟩ (battery_capacity * 0.2),
    .le ⟨[(1, .bCharge t), (1, .bDischarge t)], 0⟩ (battery_capacity * 0.2) ]

/-- Per-hour constraint loop of optimize_energy_mix. -/
def loopConstraints (battery_capacity : ℚ) : ℕ → List HourData → List Constr
  | _, [] => []
  | t, h :: rest => hourConstraints battery_capacity t h ++ loopConstraints battery_capacity (t + 1) rest

/-- Accumulation of the objective sums by the per-hour loop (`total += ...`). -/
def loopSum (f : ℕ → HourData → AffExpr) : AffExpr → ℕ → List HourData → AffExpr
  | acc, _, [] => acc
  | acc, t, h :: rest => loopSum f (acc.add (f t h)) (t + 1) rest

/-- Model assembled by optimize_energy_mix before prob.solve (lines 22-134):
initial battery level, weighted objective with carbon price 0.1 and unmet
penalty 10000, then the hourly constraint blocks. -/
def optimizeModel (series : List HourData) (battery_capacity battery_initial : ℚ)
    (cost_weight emission_weight : ℚ) (tv : Bool) : LPModel :=
  let hours := series.length
  let total_cost := loopSum hourCost ⟨[], 0⟩ 0 series
  let total_emissions := loopSum (hourEmissions tv) ⟨[], 0⟩ 0 series
  let unmet_sum : AffExpr := ⟨(List.range hours).map (fun t => ((1 : ℚ), Var.unmet t)), 0⟩
  { hours := hours
    capacity := battery_capacity
    objective :=
      ((AffExpr.smul cost_weight total_cost).add
        (AffExpr.smul 0.1 (AffExpr.smul emission_weight total_emissions))).add
        (AffExpr.smul 10000 unmet_sum)
    constraints :=
      .eq ⟨[(1, .bLevel 0)], 0⟩ battery_initial :: loopConstraints battery_capacity 0 series }

/-! ### multiday_optimization.py — model construction (lines 24-129)

The loop body is a verbatim copy of the single-day one; it is embedded by its
own definitions mirroring that file, with the terminal band appended. -/

def md_hourCost (t : ℕ) (h : HourData) : AffExpr :=
  ⟨[(h.price * 0.5, .solar t), (h.price * 0.6, .wind t), (h.price * 0.7, .hydro t)], 0⟩

def md_hourEmissions (tv : Bool) (t : ℕ) (h : HourData) : AffExpr :=
  let solar_intensity := if tv then get_carbon_intensity h.hour_of_day "solar" else emission_factors "solar"
  let wind_intensity := if tv then get_carbon_intensity h.hour_of_day "wind" else emission_factors "wind"
  let hydro_intensity := if tv then get_carbon_intensity h.hour_of_day "hydro" else emission_factors "hydro"
  ⟨[(solar_intensity, .solar t), (wind_intensity, .wind t), (hydro_intensity, .hydro t)], 0⟩

def md_hourConstraints (battery_capacity : ℚ) (t : ℕ) (h : HourData) : List Constr :=
  [ .eq ⟨[(1, .solar t), (1, .wind t), (1, .hydro t),
          (1, .bDischarge t), (-1, .bCharge t), (1, .unmet t)], 0⟩ h.demand,
    .le ⟨[(1, .solar t)], 0⟩ h.solar_available,
    .le ⟨[(1, .wind t)], 0⟩ h.wind_available,
    .le ⟨[(1, .hydro t)], 0⟩ h.hydro_available,
    .eq ⟨[(1, .bLevel (t + 1)), (-1, .bLevel t), (-(0.9 : ℚ), .bCharge t), (1, .bDischarge t)], 0⟩ 0,
    .le ⟨[(1, .bCharge t)], 0⟩ (battery_capacity * 0.2),
    .le ⟨[(1, .bDischarge t)], 0⟩ (battery_capacity * 0.2),
    .le ⟨[(1, .bCharge t), (1, .bDischarge t)], 0⟩ (battery_capacity * 0.2) ]

def md_loopConstraints (battery_capacity : ℚ) : ℕ → List HourData → List Constr
  | _, [] => []
  | t, h :: rest => md_hourConstraints battery_capacity t h ++ md_loopConstraints battery_capacity (t + 1) rest

/-- Model assembled by optimize_multiday_energy_mix before prob.solve: the
single-day structure plus the unconditional terminal band `battery_level[hours]
>= 0.2*capacity` and `<= 0.8*capacity` (lines 128-129). -/
def multidayModel (series : List HourData) (battery_capacity battery_initial : ℚ)
    (cost_weight emission_weight : ℚ) (tv : Bool) : LPModel :=
  let hours := series.length
  let total_cost := loopSum md_hourCost ⟨[], 0⟩ 0 series
  let total_emissions := loopSum (md_hourEmissions tv) ⟨[], 0⟩ 0 series
  let unmet_sum : AffExpr := ⟨(List.range hours).map (fun t => ((1 : ℚ), Var.unmet t)), 0⟩
  { hours := hours
    capacity := battery_capacity
    objective :=
      ((AffExpr.smul cost_weight total_cost).add
        (AffExpr.smul 0.1 (AffExpr.smul emission_weight total_emissions))).add
        (AffExpr.smul 10000 unmet_sum)
    constraints :=
      (.eq ⟨[(1, .bLevel 0)], 0⟩ battery_initial :: md_loopConstraints battery_capacity 0 series) ++
      [ .ge ⟨[(1, .bLevel hours)], 0⟩ (battery_capacity * 0.2),
        .le ⟨[(1, .bLevel hours)], 0⟩ (battery_capacity * 0.8) ] }

/-! ### Solver oracle and post-solve reporting

`prob.solve(...)` invokes an external solver; it is embedded as an oracle
mapping the assembled model to a pulp status and a variable assignment.  The
code then branches on `prob.status != pulp.LpStatusOptimal`. -/

/-- pulp solver status values (pulp.LpStatus keys). -/
inductive SolverStatus where
  | NotSolved
  | Optimal
  | Infeasible
  | Unbounded
  | Undefined
deriving DecidableEq, Repr

/-- pulp.LpStatus name strings. -/
def SolverStatus.name : SolverStatus → String
  | .NotSolved => "Not Solved"
  | .Optimal => "Optimal"
  | .Infeasible => "Infeasible"
  | .Unbounded => "Unbounded"
  | .Undefined => "Undefined"

/-- A solver oracle: the external LP solver collaborator. -/
def Solver : Type := LPModel → SolverStatus × (Var → ℚ)

/-- One extracted per-hour result record (the dict built at extraction time;
`datetime` is retained through its hour attribute, which is all the
post-processing reads). -/
structure HourRow where
  hour : ℕ
  hour_of_day : ℤ
  demand : ℚ
  solar_use : ℚ
  wind_use : ℚ
  hydro_use : ℚ
  battery_charge : ℚ
  battery_discharge : ℚ
  battery_level : ℚ
  unmet_demand : ℚ
  price : ℚ
deriving DecidableEq, Repr

/-- A Python float that is either a finite value or float(Inf) — the failure
branch fills the totals with float(Inf). -/
inductive PyFloat where
  | fin (q : ℚ)
  | inf
deriving DecidableEq, Repr

/-- Result dictionary common to both optimizers and the greedy baseline. -/
structure RunResult where
  status : String
  error : Option String
  objective_value : Option ℚ
  hours : List HourRow
  total_cost : PyFloat
  total_emissions : PyFloat
  total_unmet : PyFloat
deriving DecidableEq, Repr

/-- Per-hour extraction loop of optimize_energy_mix (lines 157-171):
battery_level reported for hour t is the variable battery_level[t+1]. -/
def extractRows (x : Var → ℚ) : ℕ → List HourData → List HourRow
  | _, [] => []
  | t, h :: rest =>
    { hour := t
      hour_of_day := h.hour_of_day
      demand := h.demand
      solar_use := x (.solar t)
      wind_use := x (.wind t)
      hydro_use := x (.hydro t)
      battery_charge := x (.bCharge t)
      battery_discharge := x (.bDischarge t)
      battery_level := x (.bLevel (t + 1))
      unmet_demand := x (.unmet t)
      price := h.price } :: extractRows x (t + 1) rest

/-- Realized-cost aggregate of optimize_energy_mix (lines 176-180): three
column products summed then added. -/
def opt_total_cost (rows : List HourRow) : ℚ :=
  (rows.map (fun r => r.solar_use * r.price * 0.5)).sum +
  (rows.map (fun r => r.wind_use * r.price * 0.6)).sum +
  (rows.map (fun r => r.hydro_use * r.price * 0.7)).sum

/-- Emissions aggregate of optimize_energy_mix (lines 182-186): always the
fixed emission_factors, whatever use_time_varying_carbon was. -/
def opt_total_emissions (rows : List HourRow) : ℚ :=
  (rows.map (fun r =>
    r.solar_use * emission_factors "solar" +
    r.wind_use * emission_factors "wind" +
    r.hydro_use * emission_factors "hydro")).sum

/-- optimize_energy_mix end to end, with the solver as an oracle: build the
model, solve, and either return the failure dictionary (lines 140-148) or the
extracted rows with recomputed aggregates (lines 150-190). -/
def optimize_energy_mix (series : List HourData) (battery_capacity battery_initial : ℚ)
    (cost_weight emission_weight : ℚ) (tv : Bool) (solve : Solver) : RunResult :=
  let prob := optimizeModel series battery_capacity battery_initial cost_weight emission_weight tv
  let outcome := solve prob
  if outcome.1 ≠ .Optimal then
    { status := outcome.1.name
      error := some ("Optimization failed with status: " ++ outcome.1.name)
      objective_value := none
      hours := []
      total_cost := .inf
      total_emissions := .inf
      total_unmet := .inf }
  else
    let rows := extractRows outcome.2 0 series
    { status := outcome.1.name
      error := none
      objective_value := some (prob.objective.eval outcome.2)
      hours := rows
      total_cost := .fin (opt_total_cost rows)
      total_emissions := .fin (opt_total_emissions rows)
      total_unmet := .fin ((rows.map (fun r => r.unmet_demand)).sum) }

/-! ### multiday_optimization.py — post-solve reporting (lines 132-198) -/

def md_extractRows (x : Var → ℚ) : ℕ → List HourData → List HourRow
  | _, [] => []
  | t, h :: rest =>
    { hour := t
      hour_of_day := h.hour_of_day
      demand := h.demand
      solar_use := x (.solar t)
      wind_use := x (.wind t)
      hydro_use := x (.hydro t)
      battery_charge := x (.bCharge t)
      battery_discharge := x (.bDischarge t)
      battery_level := x (.bLevel (t + 1))
      unmet_demand := x (.unmet t)
      price := h.price } :: md_extractRows x (t + 1) rest

def md_total_cost (rows : List HourRow) : ℚ :=
  (rows.map (fun r => r.solar_use * r.price * 0.5)).sum +
  (rows.map (fun r => r.wind_use * r.price * 0.6)).sum +
  (rows.map (fun r => r.hydro_use * r.price * 0.7)).sum

/-- Emissions aggregate of optimize_multiday_energy_mix (lines 178-194): the
time-varying branch iterates the rows consulting get_carbon_intensity on each
row's datetime hour; the other branch uses the fixed emission_factors. -/
def md_total_emissions (tv : Bool) (rows : List HourRow) : ℚ :=
  if tv then
    (rows.map (fun r =>
      r.solar_use * get_carbon_intensity r.hour_of_day "solar" +
      r.wind_use * get_carbon_intensity r.hour_of_day "wind" +
      r.hydro_use * get_carbon_intensity r.hour_of_day "hydro")).sum
  else
    (rows.map (fun r =>
      r.solar_use * emission_factors "solar" +
      r.wind_use * emission_factors "wind" +
      r.hydro_use * emission_factors "hydro")).sum

/-- optimize_multiday_energy_mix end to end (the days argument is only echoed
into the result dictionary and is dropped here). -/
def optimize_multiday_energy_mix (series : List HourData) (battery_capacity battery_initial : ℚ)
    (cost_weight emission_weight : ℚ) (tv : Bool) (solve : Solver) : RunResult :=
  let prob := multidayModel series battery_capacity battery_initial cost_weight emission_weight tv
  let outcome := solve prob
  if outcome.1 ≠ .Optimal then
    { status := outcome.1.name
      error := some ("Multi-day optimization failed: " ++ outcome.1.name)
      objective_value := none
      hours := []
      total_cost := .inf
      total_emissions := .inf
      total_unmet := .inf }
  else
    let rows := md_extractRows outcome.2 0 series
    { status := outcome.1.name
      error := none
      objective_value := some (prob.objective.eval outcome.2)
      hours := rows
      total_cost := .fin (md_total_cost rows)
      total_emissions := .fin (md_total_emissions tv rows)
      total_unmet := .fin ((rows.map (fun r => r.unmet_demand)).sum) }

/-! ### greedy_baseline.py -/

/-! Loop body of greedy_energy_mix (lines 28-102), decomposed line by line.
Python min of three arguments folds from the left. -/

namespace Greedy

/-- Line 26: max charge/discharge rate. -/
def maxRate (battery_capacity : ℚ) : ℚ := battery_capacity * 0.2

/-- Line 47: solar_use = min(solar_avail, remaining_demand). -/
def solarUse (h : HourData) : ℚ := min h.solar_available h.demand

/-- Line 48: remaining demand after solar. -/
def rd1 (h : HourData) : ℚ := h.demand - solarUse h

/-- Lines 51-52: wind_use guarded by remaining_demand > 0. -/
def windUse (h : HourData) : ℚ := if rd1 h > 0 then min h.wind_available (rd1 h) else 0

/-- Line 53: remaining demand after wind. -/
def rd2 (h : HourData) : ℚ := rd1 h - windUse h

/-- Lines 56-57: hydro_use guarded by remaining_demand > 0. -/
def hydroUse (h : HourData) : ℚ := if rd2 h > 0 then min h.hydro_available (rd2 h) else 0

/-- Line 58: remaining demand after hydro. -/
def rd3 (h : HourData) : ℚ := rd2 h - hydroUse h

/-- Lines 61-62: battery_discharge = min(remaining_demand, max_rate, battery_level). -/
def discharge (cap level : ℚ) (h : HourData) : ℚ :=
  if rd3 h > 0 then min (min (rd3 h) (maxRate cap)) level else 0

/-- Line 63: battery level after the discharge update. -/
def level1 (cap level : ℚ) (h : HourData) : ℚ := level - discharge cap level h

/-- Line 64: remaining demand after battery discharge. -/
def rd4 (cap level : ℚ) (h : HourData) : ℚ := rd3 h - discharge cap level h

/-- Lines 67-68: unmet_demand. -/
def unmetD (cap level : ℚ) (h : HourData) : ℚ :=
  if rd4 cap level h > 0 then rd4 cap level h else 0

/-- Line 71. -/
def excessSolar (h : HourData) : ℚ := h.solar_available - solarUse h

/-- Line 72. -/
def excessWind (h : HourData) : ℚ := h.wind_available - windUse h

/-- Line 73. -/
def excessHydro (h : HourData) : ℚ := h.hydro_available - hydroUse h

/-- Line 74. -/
def totalExcess (h : HourData) : ℚ := excessSolar h + excessWind h + excessHydro h

/-- Lines 77-78: battery_charge = min(total_excess, max_rate, (capacity - level)/efficiency),
guarded by total_excess > 0. -/
def charge (cap level : ℚ) (h : HourData) : ℚ :=
  if totalExcess h > 0 then
    min (min (totalExcess h) (maxRate cap)) ((cap - level1 cap level h) / 0.9)
  else 0

/-- Line 79: battery level after the charge update. -/
def level2 (cap level : ℚ) (h : HourData) : ℚ :=
  level1 cap level h + charge cap level h * 0.9

/-- Line 83: charge_fraction = battery_charge / total_excess (inside the
total_excess > 0 guard; 0 outside it, where no reattribution happens). -/
def chargeFraction (cap level : ℚ) (h : HourData) : ℚ :=
  if totalExcess h > 0 then charge cap level h / totalExcess h else 0

/-- Line 84: solar_use after proportional reattribution. -/
def solarUse2 (cap level : ℚ) (h : HourData) : ℚ :=
  solarUse h + excessSolar h * chargeFraction cap level h

/-- Line 85. -/
def windUse2 (cap level : ℚ) (h : HourData) : ℚ :=
  windUse h + excessWind h * chargeFraction cap level h

/-- Line 86. -/
def hydroUse2 (cap level : ℚ) (h : HourData) : ℚ :=
  hydroUse h + excessHydro h * chargeFraction cap level h

end Greedy

/-- One loop iteration of greedy_energy_mix: the recorded row (lines 88-100,
battery_level reported is the carried level after both updates) and the
carried battery level. -/
def greedyStep (battery_capacity : ℚ) (level : ℚ) (t : ℕ) (h : HourData) : HourRow × ℚ :=
  (⟨t, h.hour_of_day, h.demand,
    Greedy.solarUse2 battery_capacity level h,
    Greedy.windUse2 battery_capacity level h,
    Greedy.hydroUse2 battery_capacity level h,
    Greedy.charge battery_capacity level h,
    Greedy.discharge battery_capacity level h,
    Greedy.level2 battery_capacity level h,
    Greedy.unmetD battery_capacity level h,
    h.price⟩,
   Greedy.level2 battery_capacity level h)

/-- Hour loop of greedy_energy_mix carrying the battery level. -/
def greedyRows (battery_capacity : ℚ) : ℚ → ℕ → List HourData → List HourRow
  | _, _, [] => []
  | level, t, h :: rest =>
    let step := greedyStep battery_capacity level t h
    step.1 :: greedyRows battery_capacity step.2 (t + 1) rest

/-- Aggregate cost of greedy_energy_mix (lines 117-121). -/
def greedy_total_cost (rows : List HourRow) : ℚ :=
  (rows.map (fun r => r.solar_use * r.price * 0.5)).sum +
  (rows.map (fun r => r.wind_use * r.price * 0.6)).sum +
  (rows.map (fun r => r.hydro_use * r.price * 0.7)).sum

/-- Aggregate emissions of greedy_energy_mix (lines 123-127): fixed factors,
the function takes no carbon-accounting flag at all. -/
def greedy_total_emissions (rows : List HourRow) : ℚ :=
  (rows.map (fun r =>
    r.solar_use * emission_factors "solar" +
    r.wind_use * emission_factors "wind" +
    r.hydro_use * emission_factors "hydro")).sum

/-- greedy_energy_mix end to end: status string "Greedy", no error key, no
objective value. -/
def greedy_energy_mix (series : List HourData) (battery_capacity battery_initial : ℚ) : RunResult :=
  let rows := greedyRows battery_capacity battery_initial 0 series
  { status := "Greedy"
    error := none
    objective_value := none
    hours := rows
    total_cost := .fin (greedy_total_cost rows)
    total_emissions := .fin (greedy_total_emissions rows)
    total_unmet := .fin ((rows.map (fun r => r.unmet_demand)).sum) }

/-! ### sensitivity_analysis.py -/

/-- Scenario record appended per multiplier (lines 57-60); Python f-string
int(multiplier*100) truncates toward zero. -/
structure Scenario where
  multiplier : ℚ
  label : String
deriving DecidableEq, Repr

/-- Aggregate record appended per strategy per multiplier (lines 62-75). -/
structure SensEntry where
  multiplier : ℚ
  total_cost : PyFloat
  total_emissions : PyFloat
  total_unmet : PyFloat
deriving DecidableEq, Repr

/-- Sweep result dictionary. -/
structure SensResult where
  scenarios : List Scenario
  optimized : List SensEntry
  greedy : List SensEntry
deriving DecidableEq, Repr

/-- Price scaling of one scenario: a copy of the series with every price
multiplied (lines 36-37). -/
def scaleSeries (series : List HourData) (multiplier : ℚ) : List HourData :=
  series.map (fun h => { h with price := h.price * multiplier })

/-- Loop body of run_price_sensitivity for the list of multipliers: run both
strategies on the scaled copy; always record the scenario and the greedy
entry; record the optimizer entry only when the result has no error key
(lines 34-75). -/
def sensLoop (series : List HourData) (battery_capacity battery_initial : ℚ)
    (cost_weight emission_weight : ℚ) (tv : Bool) (solve : Solver) :
    List ℚ → SensResult
  | [] => ⟨[], [], []⟩
  | m :: rest =>
    let scenario_df := scaleSeries series m
    let opt_result := optimize_energy_mix scenario_df battery_capacity battery_initial
      cost_weight emission_weight tv solve
    let greedy_result := greedy_energy_mix scenario_df battery_capacity battery_initial
    let tail := sensLoop series battery_capacity battery_initial cost_weight emission_weight tv solve rest
    { scenarios := ⟨m, toString ⌊m * 100⌋ ++ "% Price"⟩ :: tail.scenarios
      optimized :=
        (if opt_result.error = none then
          [⟨m, opt_result.total_cost, opt_result.total_emissions, opt_result.total_unmet⟩]
        else []) ++ tail.optimized
      greedy :=
        ⟨m, greedy_result.total_cost, greedy_result.total_emissions, greedy_result.total_unmet⟩ ::
          tail.greedy }

/-- run_price_sensitivity with an explicit multiplier list (the Python default
argument [0.5, 0.75, 1.0, 1.25, 1.5] is supplied by the caller here). -/
def run_price_sensitivity (series : List HourData) (battery_capacity battery_initial : ℚ)
    (cost_weight emission_weight : ℚ) (price_scenarios : List ℚ) (tv : Bool)
    (solve : Solver) : SensResult :=
  sensLoop series battery_capacity battery_initial cost_weight emission_weight tv solve
    price_scenarios

/-! ### Specification-side definitions and concrete instances -/

/-- Stated from the specification's words (§4.2), for comparison with the
code: `total_emissions` computed with "the SAME accounting mode selected for
the call" — with time-varying mode on, the sum over hours of each source's use
times the CarbonIntensityModel intensity for that hour-of-day; with it off,
the sum using the fixed base factors solar=45, wind=12, hydro=24. -/
def specEmissionsSameMode (tv : Bool) (rows : List HourRow) : ℚ :=
  if tv then
    (rows.map (fun r =>
      r.solar_use * get_carbon_intensity r.hour_of_day "solar" +
      r.wind_use * get_carbon_intensity r.hour_of_day "wind" +
      r.hydro_use * get_carbon_intensity r.hour_of_day "hydro")).sum
  else
    (rows.map (fun r =>
      r.solar_use * 45 + r.wind_use * 12 + r.hydro_use * 24)).sum

/-- One daytime hour (hour-of-day 9, time multiplier 1.15): demand 1 served
entirely by solar. -/
def sampleHour : HourData := ⟨9, 1, 1, 0, 0, 1⟩

def sampleSeries : List HourData := [sampleHour]

/-- The optimal dispatch for sampleSeries with an empty battery: one unit of
solar, everything else zero. -/
def xSample : Var → ℚ
  | .solar 0 => 1
  | _ => 0

/-- A solver oracle returning Optimal with xSample. -/
def oracleSample : Solver := fun _ => (.Optimal, xSample)

/-- A solver oracle reporting infeasibility. -/
def oracleInfeasible : Solver := fun _ => (.Infeasible, fun _ => 0)

/-- The all-zero assignment. -/
def xZero : Var → ℚ := fun _ => 0

/-- A solver oracle returning Optimal with the all-zero assignment. -/
def oracleZero : Solver := fun _ => (.Optimal, xZero)

/-- A two-day horizon (48 hours, a multiple of 24) of zero demand and zero
availability. -/
def zeroSeries48 : List HourData := List.replicate 48 ⟨0, 0, 0, 0, 0, 1⟩

/-- A one-hour series with a malformed row: negative demand. -/
def badSeries : List HourData := [⟨0, -1, 0, 0, 0, 1⟩]

/-- A one-hour zero-demand series. -/
def calmSeries : List HourData := [⟨0, 0, 0, 0, 0, 1⟩]

/-- A constant battery trajectory at level 250 with no flows. -/
def xHold : Var → ℚ
  | .bLevel _ => 250
  | _ => 0

/-- One hour with demand 5 and 10 units of solar available. -/
def c5Hour : HourData := ⟨0, 5, 10, 0, 0, 1⟩

def c5Series : List HourData := [c5Hour]

/-! ### Helper lemmas -/

lemma loopConstraints_length (cap : ℚ) :
    ∀ (t : ℕ) (l : List HourData), (loopConstraints cap t l).length = 8 * l.length := by
  intro t l
  induction l generalizing t with
  | nil => simp [loopConstraints]
  | cons h rest ih =>
    simp only [loopConstraints, hourConstraints, List.length_append, List.length_cons,
      List.length_nil, ih]
    omega

lemma md_loopConstraints_length (cap : ℚ) :
    ∀ (t : ℕ) (l : List HourData), (md_loopConstraints cap t l).length = 8 * l.length := by
  intro t l
  induction l generalizing t with
  | nil => simp [md_loopConstraints]
  | cons h rest ih =>
    simp only [md_loopConstraints, md_hourConstraints, List.length_append, List.length_cons,
      List.length_nil, ih]
    omega

lemma md_hourCost_eq : md_hourCost = hourCost := rfl

lemma md_hourEmissions_eq : md_hourEmissions = hourEmissions := rfl

lemma md_hourConstraints_eq : md_hourConstraints = hourConstraints := rfl

lemma md_total_cost_eq : md_total_cost = opt_total_cost := rfl

lemma md_loopConstraints_eq (cap : ℚ) (t : ℕ) (l : List HourData) :
    md_loopConstraints cap t l = loopConstraints cap t l := by
  induction l generalizing t with
  | nil => rfl
  | cons h rest ih => simp [md_loopConstraints, loopConstraints, md_hourConstraints_eq, ih]

lemma md_extractRows_eq (x : Var → ℚ) (t : ℕ) (l : List HourData) :
    md_extractRows x t l = extractRows x t l := by
  induction l generalizing t with
  | nil => rfl
  | cons h rest ih => simp [md_extractRows, extractRows, ih]

/-- The mode-dependent multi-day aggregate coincides with the aggregate the
spec describes for the selected accounting mode. -/
lemma md_total_emissions_eq_spec (tv : Bool) (rows : List HourRow) :
    md_total_emissions tv rows = specEmissionsSameMode tv rows := by
  cases tv with
  | false =>
    simp [md_total_emissions, specEmissionsSameMode, emission_factors]
  | true => rfl

/-- The single-day emissions aggregate is the mode-off aggregate of the spec. -/
lemma opt_total_emissions_eq_spec (rows : List HourRow) :
    opt_total_emissions rows = specEmissionsSameMode false rows := by
  simp [opt_total_emissions, specEmissionsSameMode, emission_factors]

/-- Success branch of optimize_energy_mix, spelled out. -/
lemma optimize_success_def (series : List HourData) (cap init cw ew : ℚ)
    (tv : Bool) (solve : Solver)
    (h : (solve (optimizeModel series cap init cw ew tv)).1 = .Optimal) :
    optimize_energy_mix series cap init cw ew tv solve =
      { status := "Optimal"
        error := none
        objective_value := some ((optimizeModel series cap init cw ew tv).objective.eval
          (solve (optimizeModel series cap init cw ew tv)).2)
        hours := extractRows (solve (optimizeModel series cap init cw ew tv)).2 0 series
        total_cost := .fin (opt_total_cost
          (extractRows (solve (optimizeModel series cap init cw ew tv)).2 0 series))
        total_emissions := .fin (opt_total_emissions
          (extractRows (solve (optimizeModel series cap init cw ew tv)).2 0 series))
        total_unmet := .fin ((List.map (fun r => r.unmet_demand)
          (extractRows (solve (optimizeModel series cap init cw ew tv)).2 0 series)).sum) } := by
  unfold optimize_energy_mix
  dsimp only
  rw [if_neg (by simp [h]), h]
  rfl

/-- Success branch of optimize_multiday_energy_mix, spelled out. -/
lemma multiday_success_def (series : List HourData) (cap init cw ew : ℚ)
    (tv : Bool) (solve : Solver)
    (h : (solve (multidayModel series cap init cw ew tv)).1 = .Optimal) :
    optimize_multiday_energy_mix series cap init cw ew tv solve =
      { status := "Optimal"
        error := none
        objective_value := some ((multidayModel series cap init cw ew tv).objective.eval
          (solve (multidayModel series cap init cw ew tv)).2)
        hours := md_extractRows (solve (multidayModel series cap init cw ew tv)).2 0 series
        total_cost := .fin (md_total_cost
          (md_extractRows (solve (multidayModel series cap init cw ew tv)).2 0 series))
        total_emissions := .fin (md_total_emissions tv
          (md_extractRows (solve (multidayModel series cap init cw ew tv)).2 0 series))
        total_unmet := .fin ((List.map (fun r => r.unmet_demand)
          (md_extractRows (solve (multidayModel series cap init cw ew tv)).2 0 series)).sum) } := by
  unfold optimize_multiday_energy_mix
  dsimp only
  rw [if_neg (by simp [h]), h]
  rfl

/-! Facts about one greedy loop iteration. -/

namespace Greedy

lemma rd1_nonneg (h : HourData) : 0 ≤ rd1 h :=
  sub_nonneg.mpr (min_le_right _ _)

lemma rd2_nonneg (h : HourData) : 0 ≤ rd2 h := by
  unfold rd2 windUse
  split
  · have := min_le_right h.wind_available (rd1 h)
    linarith
  · have := rd1_nonneg h
    linarith

lemma rd3_nonneg (h : HourData) : 0 ≤ rd3 h := by
  unfold rd3 hydroUse
  split
  · have := min_le_right h.hydro_available (rd2 h)
    linarith
  · have := rd2_nonneg h
    linarith

lemma maxRate_nonneg {cap : ℚ} (hcap : 0 ≤ cap) : 0 ≤ maxRate cap := by
  unfold maxRate
  positivity

lemma discharge_nonneg {cap level : ℚ} (h : HourData) (hcap : 0 ≤ cap) (hlev : 0 ≤ level) :
    0 ≤ discharge cap level h := by
  unfold discharge
  split
  · exact le_min (le_min (le_of_lt (by assumption)) (maxRate_nonneg hcap)) hlev
  · exact le_refl 0

lemma discharge_le_rd3 (cap level : ℚ) (h : HourData) : discharge cap level h ≤ rd3 h := by
  unfold discharge
  split
  · exact le_trans (min_le_left _ _) (min_le_left _ _)
  · exact rd3_nonneg h

lemma discharge_le_level {cap level : ℚ} (h : HourData) (hlev : 0 ≤ level) :
    discharge cap level h ≤ level := by
  unfold discharge
  split
  · exact min_le_right _ _
  · exact hlev

lemma discharge_le_maxRate {cap : ℚ} (level : ℚ) (h : HourData) (hcap : 0 ≤ cap) :
    discharge cap level h ≤ maxRate cap := by
  unfold discharge
  split
  · exact le_trans (min_le_left _ _) (min_le_right _ _)
  · exact maxRate_nonneg hcap

lemma rd4_nonneg (cap level : ℚ) (h : HourData) : 0 ≤ rd4 cap level h :=
  sub_nonneg.mpr (discharge_le_rd3 cap level h)

lemma unmetD_eq_rd4 (cap level : ℚ) (h : HourData) : unmetD cap level h = rd4 cap level h := by
  unfold unmetD
  split
  · rfl
  · exact (le_antisymm (not_lt.mp (by assumption)) (rd4_nonneg cap level h)).symm

lemma level1_nonneg {cap level : ℚ} (h : HourData) (hlev : 0 ≤ level) :
    0 ≤ level1 cap level h :=
  sub_nonneg.mpr (discharge_le_level h hlev)

lemma level1_le_cap {cap level : ℚ} (h : HourData) (hcap : 0 ≤ cap) (hlev : 0 ≤ level)
    (hlc : level ≤ cap) : level1 cap level h ≤ cap := by
  have := discharge_nonneg h hcap hlev
  unfold level1
  linarith

lemma charge_nonneg {cap level : ℚ} (h : HourData) (hcap : 0 ≤ cap) (hlev : 0 ≤ level)
    (hlc : level ≤ cap) : 0 ≤ charge cap level h := by
  unfold charge
  split
  · refine le_min (le_min (le_of_lt (by assumption)) (maxRate_nonneg hcap)) ?_
    exact div_nonneg (sub_nonneg.mpr (level1_le_cap h hcap hlev hlc)) (by norm_num)
  · exact le_refl 0

lemma charge_le_maxRate {cap : ℚ} (level : ℚ) (h : HourData) (hcap : 0 ≤ cap) :
    charge cap level h ≤ maxRate cap := by
  unfold charge
  split
  · exact le_trans (min_le_left _ _) (min_le_right _ _)
  · exact maxRate_nonneg hcap

lemma charge_le_totalExcess {cap level : ℚ} (h : HourData) (hTE : totalExcess h > 0) :
    charge cap level h ≤ totalExcess h := by
  unfold charge
  rw [if_pos hTE]
  exact le_trans (min_le_left _ _) (min_le_left _ _)

lemma charge_eq_zero {cap level : ℚ} (h : HourData) (hTE : ¬ totalExcess h > 0) :
    charge cap level h = 0 := by
  unfold charge
  rw [if_neg hTE]

lemma charge_mul_le {cap level : ℚ} (h : HourData) (hcap : 0 ≤ cap) (hlev : 0 ≤ level)
    (hlc : level ≤ cap) : charge cap level h * 0.9 ≤ cap - level1 cap level h := by
  unfold charge
  split
  · have hm : min (min (totalExcess h) (maxRate cap)) ((cap - level1 cap level h) / 0.9) ≤
        (cap - level1 cap level h) / 0.9 := min_le_right _ _
    have := mul_le_mul_of_nonneg_right hm (by norm_num : (0 : ℚ) ≤ 0.9)
    calc min (min (totalExcess h) (maxRate cap)) ((cap - level1 cap level h) / 0.9) * 0.9 ≤
        (cap - level1 cap level h) / 0.9 * 0.9 := this
      _ = cap - level1 cap level h := div_mul_cancel₀ _ (by norm_num)
  · have := level1_le_cap h hcap hlev hlc
    linarith

lemma level2_nonneg {cap level : ℚ} (h : HourData) (hcap : 0 ≤ cap) (hlev : 0 ≤ level)
    (hlc : level ≤ cap) : 0 ≤ level2 cap level h :=
  add_nonneg (level1_nonneg h hlev)
    (mul_nonneg (charge_nonneg h hcap hlev hlc) (by norm_num))

lemma level2_le_cap {cap level : ℚ} (h : HourData) (hcap : 0 ≤ cap) (hlev : 0 ≤ level)
    (hlc : level ≤ cap) : level2 cap level h ≤ cap := by
  have := charge_mul_le h hcap hlev hlc
  unfold level2
  linarith

lemma chargeFraction_nonneg {cap level : ℚ} (h : HourData) (hcap : 0 ≤ cap) (hlev : 0 ≤ level)
    (hlc : level ≤ cap) : 0 ≤ chargeFraction cap level h := by
  unfold chargeFraction
  split
  · exact div_nonneg (charge_nonneg h hcap hlev hlc) (le_of_lt (by assumption))
  · exact le_refl 0

lemma chargeFraction_le_one {cap level : ℚ} (h : HourData) : chargeFraction cap level h ≤ 1 := by
  unfold chargeFraction
  split
  · exact (div_le_one (by assumption)).mpr (charge_le_totalExcess h (by assumption))
  · norm_num

lemma excessSolar_nonneg (h : HourData) : 0 ≤ excessSolar h :=
  sub_nonneg.mpr (min_le_left _ _)

lemma excessWind_nonneg (h : HourData) (hw : 0 ≤ h.wind_available) : 0 ≤ excessWind h := by
  unfold excessWind windUse
  split
  · have := min_le_left h.wind_available (rd1 h)
    linarith
  · simpa using hw

lemma excessHydro_nonneg (h : HourData) (hh : 0 ≤ h.hydro_available) : 0 ≤ excessHydro h := by
  unfold excessHydro hydroUse
  split
  · have := min_le_left h.hydro_available (rd2 h)
    linarith
  · simpa using hh

lemma solarUse2_le_avail (cap level : ℚ) (h : HourData) :
    solarUse2 cap level h ≤ h.solar_available := by
  have h1 : excessSolar h * chargeFraction cap level h ≤ excessSolar h * 1 :=
    mul_le_mul_of_nonneg_left (chargeFraction_le_one h) (excessSolar_nonneg h)
  have h2 : solarUse h + excessSolar h = h.solar_available := by
    unfold excessSolar
    ring
  unfold solarUse2
  linarith

lemma windUse2_le_avail (cap level : ℚ) (h : HourData) (hw : 0 ≤ h.wind_available) :
    windUse2 cap level h ≤ h.wind_available := by
  have h1 : excessWind h * chargeFraction cap level h ≤ excessWind h * 1 :=
    mul_le_mul_of_nonneg_left (chargeFraction_le_one h) (excessWind_nonneg h hw)
  have h2 : windUse h + excessWind h = h.wind_available := by
    unfold excessWind
    ring
  unfold windUse2
  linarith

lemma hydroUse2_le_avail (cap level : ℚ) (h : HourData) (hh : 0 ≤ h.hydro_available) :
    hydroUse2 cap level h ≤ h.hydro_available := by
  have h1 : excessHydro h * chargeFraction cap level h ≤ excessHydro h * 1 :=
    mul_le_mul_of_nonneg_left (chargeFraction_le_one h) (excessHydro_nonneg h hh)
  have h2 : hydroUse h + excessHydro h = h.hydro_available := by
    unfold excessHydro
    ring
  unfold hydroUse2
  linarith

/-- The proportional reattribution adds exactly the charged energy to the
summed per-source uses. -/
lemma useSum_eq (cap level : ℚ) (h : HourData) :
    solarUse2 cap level h + windUse2 cap level h + hydroUse2 cap level h =
      solarUse h + windUse h + hydroUse h + charge cap level h := by
  unfold solarUse2 windUse2 hydroUse2 chargeFraction
  split
  · have hne : totalExcess h ≠ 0 := ne_of_gt (by assumption)
    have hte : excessSolar h + excessWind h + excessHydro h = totalExcess h := rfl
    have key : excessSolar h * (charge cap level h / totalExcess h) +
        excessWind h * (charge cap level h / totalExcess h) +
        excessHydro h * (charge cap level h / totalExcess h) = charge cap level h := by
      field_simp
      rw [← hte]
      ring
    linarith
  · have hzero : charge cap level h = 0 := charge_eq_zero h (by assumption)
    rw [hzero]
    ring

/-- Exact demand balance of one greedy iteration, for arbitrary inputs. -/
lemma step_balance (cap level : ℚ) (h : HourData) :
    solarUse2 cap level h + windUse2 cap level h + hydroUse2 cap level h +
      discharge cap level h - charge cap level h + unmetD cap level h = h.demand := by
  have h1 := useSum_eq cap level h
  have h2 := unmetD_eq_rd4 cap level h
  unfold rd4 rd3 rd2 rd1 at h2
  linarith

lemma rd3_pos_hydro (h : HourData) (hp : 0 < rd3 h) :
    hydroUse h = h.hydro_available ∧ 0 < rd2 h := by
  by_cases h2 : rd2 h > 0
  · refine ⟨?_, h2⟩
    unfold hydroUse
    rw [if_pos h2]
    rcases le_or_lt (rd2 h) h.hydro_available with hle | hlt
    · exfalso
      have : hydroUse h = rd2 h := by
        unfold hydroUse
        rw [if_pos h2]
        exact min_eq_right hle
      unfold rd3 at hp
      rw [this] at hp
      linarith
    · exact min_eq_left (le_of_lt hlt)
  · exfalso
    have : hydroUse h = 0 := by
      unfold hydroUse
      rw [if_neg h2]
    unfold rd3 at hp
    rw [this] at hp
    have := rd2_nonneg h
    simp at hp
    exact h2 hp

lemma rd2_pos_wind (h : HourData) (hp : 0 < rd2 h) :
    windUse h = h.wind_available ∧ 0 < rd1 h := by
  by_cases h2 : rd1 h > 0
  · refine ⟨?_, h2⟩
    unfold windUse
    rw [if_pos h2]
    rcases le_or_lt (rd1 h) h.wind_available with hle | hlt
    · exfalso
      have : windUse h = rd1 h := by
        unfold windUse
        rw [if_pos h2]
        exact min_eq_right hle
      unfold rd2 at hp
      rw [this] at hp
      linarith
    · exact min_eq_left (le_of_lt hlt)
  · exfalso
    have : windUse h = 0 := by
      unfold windUse
      rw [if_neg h2]
    unfold rd2 at hp
    rw [this] at hp
    have := rd1_nonneg h
    simp at hp
    exact h2 hp

lemma rd1_pos_solar (h : HourData) (hp : 0 < rd1 h) : solarUse h = h.solar_available := by
  unfold solarUse
  rcases le_or_lt h.solar_available h.demand with hle | hlt
  · exact min_eq_left hle
  · exfalso
    have : solarUse h = h.demand := min_eq_right (le_of_lt hlt)
    unfold rd1 at hp
    rw [this] at hp
    linarith

/-- With positive unmet demand, every serving stage was saturated and no
reattribution happened: the recorded uses equal the availabilities, no charge
occurred, and the discharge is min(max_rate, entering battery level). -/
lemma unmet_pos_saturated (cap level : ℚ) (h : HourData) (hu : 0 < unmetD cap level h) :
    solarUse2 cap level h = h.solar_available ∧
    windUse2 cap level h = h.wind_available ∧
    hydroUse2 cap level h = h.hydro_available ∧
    charge cap level h = 0 ∧
    discharge cap level h = min (maxRate cap) level := by
  have hrd4 : 0 < rd4 cap level h := by
    rw [unmetD_eq_rd4] at hu
    exact hu
  have hrd3 : 0 < rd3 h := by
    by_contra hn
    have hD : discharge cap level h = 0 := by
      unfold discharge
      rw [if_neg hn]
    unfold rd4 at hrd4
    rw [hD] at hrd4
    have := rd3_nonneg h
    simp at hrd4
    exact hn hrd4
  obtain ⟨hhy, hrd2⟩ := rd3_pos_hydro h hrd3
  obtain ⟨hwi, hrd1⟩ := rd2_pos_wind h hrd2
  have hso := rd1_pos_solar h hrd1
  have hexS : excessSolar h = 0 := by
    unfold excessSolar
    rw [hso]
    ring
  have hexW : excessWind h = 0 := by
    unfold excessWind
    rw [hwi]
    ring
  have hexH : excessHydro h = 0 := by
    unfold excessHydro
    rw [hhy]
    ring
  have hTE : ¬ totalExcess h > 0 := by
    unfold totalExcess
    rw [hexS, hexW, hexH]
    norm_num
  have hch : charge cap level h = 0 := charge_eq_zero h hTE
  have hcf : chargeFraction cap level h = 0 := by
    unfold chargeFraction
    rw [if_neg hTE]
  have hdis : discharge cap level h = min (maxRate cap) level := by
    have hDdef : discharge cap level h = min (min (rd3 h) (maxRate cap)) level := by
      unfold discharge
      rw [if_pos hrd3]
    have hDlt : discharge cap level h < rd3 h := by
      unfold rd4 at hrd4
      linarith
    rcases le_or_lt (min (maxRate cap) level) (rd3 h) with hle | hlt
    · rw [hDdef, min_assoc, min_eq_right hle]
    · exfalso
      rw [hDdef, min_assoc, min_eq_left (le_of_lt hlt)] at hDlt
      exact lt_irrefl _ hDlt
  refine ⟨?_, ?_, ?_, hch, hdis⟩
  · unfold solarUse2
    rw [hcf, hso]
    ring
  · unfold windUse2
    rw [hcf, hwi]
    ring
  · unfold hydroUse2
    rw [hcf, hhy]
    ring

end Greedy

/-- Feasibility of the concrete one-solar-unit assignment for the one-hour
sample model with an empty battery. -/
lemma sampleModel_feasible : (optimizeModel sampleSeries 500 0 0.7 0.3 true).Feasible xSample := by
  refine ⟨?_, ?_, ?_⟩
  · intro c hc
    simp only [optimizeModel, sampleSeries, sampleHour, loopConstraints, hourConstraints,
      List.append_nil] at hc
    fin_cases hc <;> norm_num [Constr.Holds, AffExpr.eval, xSample]
  · intro t ht
    simp only [optimizeModel, sampleSeries, List.length_cons, List.length_nil] at ht
    interval_cases t
    norm_num [xSample]
  · intro t ht
    simp only [optimizeModel, sampleSeries, List.length_cons, List.length_nil] at ht
    interval_cases t <;> norm_num [optimizeModel, xSample]

/-! ### Claim theorems -/

/-- C10: for every hour value and every source string outside solar, wind and
hydro, the carbon-intensity lookup does not fail and returns 0 — the unknown
source maps to base factor 0, which the time-of-day multiplier then scales. -/
theorem C10_unknown_source_yields_zero (hour : ℤ) (source : String)
    (h1 : source ≠ "solar") (h2 : source ≠ "wind") (h3 : source ≠ "hydro") :
    get_carbon_intensity hour source = 0 := by
  unfold get_carbon_intensity base_emissions
  rw [if_neg h1, if_neg h2, if_neg h3, zero_mul]

/-- Witness for C10 at hour 12 and source "coal". -/
theorem C10_witness :
    (("coal" : String) ≠ "solar" ∧ ("coal" : String) ≠ "wind" ∧ ("coal" : String) ≠ "hydro") ∧
    get_carbon_intensity 12 "coal" = 0 :=
  ⟨by decide, C10_unknown_source_yields_zero 12 "coal" (by decide) (by decide) (by decide)⟩

/-- C8: on any non-optimal solver status, both optimizers return a result
carrying that status, a descriptive message, and no per-hour records; the
embedding is a single pass over the solver outcome, with no internal retry. -/
theorem C8_nonoptimal_is_terminal (series : List HourData)
    (cap init cw ew : ℚ) (tv : Bool) (solve : Solver)
    (h1 : (solve (optimizeModel series cap init cw ew tv)).1 ≠ .Optimal)
    (h2 : (solve (multidayModel series cap init cw ew tv)).1 ≠ .Optimal) :
    (optimize_energy_mix series cap init cw ew tv solve).hours = [] ∧
    (optimize_energy_mix series cap init cw ew tv solve).status =
      (solve (optimizeModel series cap init cw ew tv)).1.name ∧
    (optimize_energy_mix series cap init cw ew tv solve).error =
      some ("Optimization failed with status: " ++
        (solve (optimizeModel series cap init cw ew tv)).1.name) ∧
    (optimize_multiday_energy_mix series cap init cw ew tv solve).hours = [] ∧
    (optimize_multiday_energy_mix series cap init cw ew tv solve).status =
      (solve (multidayModel series cap init cw ew tv)).1.name ∧
    (optimize_multiday_energy_mix series cap init cw ew tv solve).error =
      some ("Multi-day optimization failed: " ++
        (solve (multidayModel series cap init cw ew tv)).1.name) := by
  simp [optimize_energy_mix, optimize_multiday_energy_mix, h1, h2]

/-- Witness for C8: an infeasibility-reporting solver on the one-hour sample. -/
theorem C8_witness :
    ((oracleInfeasible (optimizeModel sampleSeries 500 250 0.7 0.3 true)).1 ≠ .Optimal ∧
     (oracleInfeasible (multidayModel sampleSeries 500 250 0.7 0.3 true)).1 ≠ .Optimal) ∧
    (optimize_energy_mix sampleSeries 500 250 0.7 0.3 true oracleInfeasible).hours = [] ∧
    (optimize_energy_mix sampleSeries 500 250 0.7 0.3 true oracleInfeasible).status =
      (oracleInfeasible (optimizeModel sampleSeries 500 250 0.7 0.3 true)).1.name ∧
    (optimize_energy_mix sampleSeries 500 250 0.7 0.3 true oracleInfeasible).error =
      some ("Optimization failed with status: " ++
        (oracleInfeasible (optimizeModel sampleSeries 500 250 0.7 0.3 true)).1.name) ∧
    (optimize_multiday_energy_mix sampleSeries 500 250 0.7 0.3 true oracleInfeasible).hours = [] ∧
    (optimize_multiday_energy_mix sampleSeries 500 250 0.7 0.3 true oracleInfeasible).status =
      (oracleInfeasible (multidayModel sampleSeries 500 250 0.7 0.3 true)).1.name ∧
    (optimize_multiday_energy_mix sampleSeries 500 250 0.7 0.3 true oracleInfeasible).error =
      some ("Multi-day optimization failed: " ++
        (oracleInfeasible (multidayModel sampleSeries 500 250 0.7 0.3 true)).1.name) :=
  ⟨⟨by decide, by decide⟩,
   C8_nonoptimal_is_terminal sampleSeries 500 250 0.7 0.3 true oracleInfeasible
     (by decide) (by decide)⟩

/-- C2 counterexample: on a series with negative demand (a malformed
ForecastSeries), the single-day optimizer does not fail before model
construction: the full model is built (9 constraints for one hour) and the
call goes through the solver, returning its status with per-hour data — no
InvalidInput failure occurs. -/
theorem C2_counterexample :
    (optimizeModel badSeries 500 250 0.7 0.3 true).constraints.length = 9 ∧
    (optimize_energy_mix badSeries 500 250 0.7 0.3 true oracleZero).status = "Optimal" ∧
    (optimize_energy_mix badSeries 500 250 0.7 0.3 true oracleZero).hours ≠ [] := by
  refine ⟨?_, ?_, ?_⟩ <;> decide

/-- C2 amended: the optimizers perform no input validation at all.  For every
series, malformed or not, the full model is constructed unconditionally
(8·H+1 constraints single-day, 8·H+3 multi-day including the terminal band)
and the solver is invoked; the returned status is always the solver's status,
so no InvalidInput outcome exists. -/
theorem C2_no_validation (series : List HourData)
    (cap init cw ew : ℚ) (tv : Bool) (solve : Solver) :
    (optimizeModel series cap init cw ew tv).constraints.length = 8 * series.length + 1 ∧
    (multidayModel series cap init cw ew tv).constraints.length = 8 * series.length + 3 ∧
    (optimize_energy_mix series cap init cw ew tv solve).status =
      (solve (optimizeModel series cap init cw ew tv)).1.name ∧
    (optimize_multiday_energy_mix series cap init cw ew tv solve).status =
      (solve (multidayModel series cap init cw ew tv)).1.name := by
  refine ⟨?_, ?_, ?_, ?_⟩
  · simp [optimizeModel, loopConstraints_length]
  · simp [multidayModel, md_loopConstraints_length]
  · unfold optimize_energy_mix
    dsimp only
    split <;> rfl
  · unfold optimize_multiday_energy_mix
    dsimp only
    split <;> rfl

/-- C7: greedy aggregates use exactly the optimizer's fixed cost factors
(solar 0.5, wind 0.6, hydro 0.7 times price) and always the fixed per-source
emission factors — the same value the mode-dependent accounting yields with
time-varying mode off; the greedy dispatcher accepts no carbon-mode argument
at all, so no caller preference can alter this. -/
theorem C7_greedy_fixed_aggregates (series : List HourData) (cap init : ℚ) :
    (greedy_energy_mix series cap init).total_cost =
      .fin (opt_total_cost (greedy_energy_mix series cap init).hours) ∧
    (greedy_energy_mix series cap init).total_emissions =
      .fin (opt_total_emissions (greedy_energy_mix series cap init).hours) ∧
    (greedy_energy_mix series cap init).total_emissions =
      .fin (md_total_emissions false (greedy_energy_mix series cap init).hours) := by
  exact ⟨rfl, rfl, rfl⟩

/-- C1 counterexample: a single daytime hour (hour-of-day 9, multiplier 1.15)
served by one unit of solar, optimized with use_time_varying_carbon = True.
The solver outcome is feasible and optimal, yet the reported total_emissions
is the fixed-factor value 45, not the mode-consistent 45·1.15 = 51.75: the
single-day optimizer does not report emissions in the selected accounting
mode. -/
theorem C1_counterexample :
    (optimizeModel sampleSeries 500 0 0.7 0.3 true).Feasible xSample ∧
    (optimize_energy_mix sampleSeries 500 0 0.7 0.3 true oracleSample).status = "Optimal" ∧
    (optimize_energy_mix sampleSeries 500 0 0.7 0.3 true oracleSample).total_emissions ≠
      .fin (specEmissionsSameMode true
        (optimize_energy_mix sampleSeries 500 0 0.7 0.3 true oracleSample).hours) := by
  refine ⟨sampleModel_feasible, by decide, ?_⟩
  norm_num [optimize_energy_mix, optimizeModel, oracleSample, extractRows, sampleSeries,
      sampleHour, opt_total_emissions, specEmissionsSameMode, emission_factors,
      get_carbon_intensity, base_emissions, time_multiplier, xSample]

/-- C1 amended: the reported total_emissions matches the selected accounting
mode only for the multi-day entry point; the single-day entry point always
reports the fixed-factor (mode-off) aggregate, whatever mode was selected for
the call. -/
theorem C1_emissions_accounting (series : List HourData) (cap init cw ew : ℚ)
    (tv : Bool) (solve : Solver)
    (h1 : (solve (optimizeModel series cap init cw ew tv)).1 = .Optimal)
    (h2 : (solve (multidayModel series cap init cw ew tv)).1 = .Optimal) :
    (optimize_energy_mix series cap init cw ew tv solve).total_emissions =
      .fin (specEmissionsSameMode false
        (optimize_energy_mix series cap init cw ew tv solve).hours) ∧
    (optimize_multiday_energy_mix series cap init cw ew tv solve).total_emissions =
      .fin (specEmissionsSameMode tv
        (optimize_multiday_energy_mix series cap init cw ew tv solve).hours) := by
  rw [optimize_success_def series cap init cw ew tv solve h1,
    multiday_success_def series cap init cw ew tv solve h2]
  exact ⟨by rw [opt_total_emissions_eq_spec], by rw [md_total_emissions_eq_spec]⟩

/-- Witness for C1 amended, on the one-hour sample with an optimal oracle. -/
theorem C1_witness :
    ((oracleSample (optimizeModel sampleSeries 500 0 0.7 0.3 true)).1 = .Optimal ∧
     (oracleSample (multidayModel sampleSeries 500 0 0.7 0.3 true)).1 = .Optimal) ∧
    (optimize_energy_mix sampleSeries 500 0 0.7 0.3 true oracleSample).total_emissions =
      .fin (specEmissionsSameMode false
        (optimize_energy_mix sampleSeries 500 0 0.7 0.3 true oracleSample).hours) ∧
    (optimize_multiday_energy_mix sampleSeries 500 0 0.7 0.3 true oracleSample).total_emissions =
      .fin (specEmissionsSameMode true
        (optimize_multiday_energy_mix sampleSeries 500 0 0.7 0.3 true oracleSample).hours) :=
  ⟨⟨by decide, by decide⟩,
   C1_emissions_accounting sampleSeries 500 0 0.7 0.3 true oracleSample (by decide) (by decide)⟩

/-- C4 counterexample: on identical inputs and an identical solver outcome,
the single-day and multi-day optimizers extract identical per-hour rows but
report different total_emissions aggregates (45 vs 51.75 on the one-hour
daytime sample with time-varying mode on): the produced DispatchPlans are not
equal. -/
theorem C4_counterexample :
    (optimize_energy_mix sampleSeries 500 0 0.7 0.3 true oracleSample).hours =
      (optimize_multiday_energy_mix sampleSeries 500 0 0.7 0.3 true oracleSample).hours ∧
    (optimize_energy_mix sampleSeries 500 0 0.7 0.3 true oracleSample).total_emissions ≠
      (optimize_multiday_energy_mix sampleSeries 500 0 0.7 0.3 true oracleSample).total_emissions := by
  constructor
  · simp [optimize_energy_mix, optimize_multiday_energy_mix, oracleSample,
      md_extractRows_eq]
  · norm_num [optimize_energy_mix, optimize_multiday_energy_mix, optimizeModel, multidayModel,
      oracleSample, extractRows, md_extractRows, sampleSeries, sampleHour,
      opt_total_emissions, md_total_emissions, emission_factors,
      get_carbon_intensity, base_emissions, time_multiplier, xSample]

/-- C4 amended: the two optimizers assemble the same LP — identical horizon,
capacity, objective, and constraint list up to the two appended terminal-band
constraints — and, on the same solver outcome, produce plans equal in status,
per-hour rows, total_cost, total_unmet and objective value; the aggregates
only differ in total_emissions, which the single-day entry point reports with
fixed factors while the multi-day one follows the selected mode (they agree
when time-varying mode is off). -/
theorem C4_parameterized_same_algorithm (series : List HourData) (cap init cw ew : ℚ)
    (tv : Bool) (st : SolverStatus) (x : Var → ℚ) :
    (multidayModel series cap init cw ew tv).hours =
      (optimizeModel series cap init cw ew tv).hours ∧
    (multidayModel series cap init cw ew tv).capacity =
      (optimizeModel series cap init cw ew tv).capacity ∧
    (multidayModel series cap init cw ew tv).objective =
      (optimizeModel series cap init cw ew tv).objective ∧
    (multidayModel series cap init cw ew tv).constraints =
      (optimizeModel series cap init cw ew tv).constraints ++
        [ .ge ⟨[(1, .bLevel series.length)], 0⟩ (cap * 0.2),
          .le ⟨[(1, .bLevel series.length)], 0⟩ (cap * 0.8) ] ∧
    (optimize_multiday_energy_mix series cap init cw ew tv (fun _ => (st, x))).status =
      (optimize_energy_mix series cap init cw ew tv (fun _ => (st, x))).status ∧
    (optimize_multiday_energy_mix series cap init cw ew tv (fun _ => (st, x))).hours =
      (optimize_energy_mix series cap init cw ew tv (fun _ => (st, x))).hours ∧
    (optimize_multiday_energy_mix series cap init cw ew tv (fun _ => (st, x))).total_cost =
      (optimize_energy_mix series cap init cw ew tv (fun _ => (st, x))).total_cost ∧
    (optimize_multiday_energy_mix series cap init cw ew tv (fun _ => (st, x))).total_unmet =
      (optimize_energy_mix series cap init cw ew tv (fun _ => (st, x))).total_unmet ∧
    (optimize_multiday_energy_mix series cap init cw ew tv (fun _ => (st, x))).objective_value =
      (optimize_energy_mix series cap init cw ew tv (fun _ => (st, x))).objective_value ∧
    (tv = false →
      (optimize_multiday_energy_mix series cap init cw ew tv (fun _ => (st, x))).total_emissions =
        (optimize_energy_mix series cap init cw ew tv (fun _ => (st, x))).total_emissions) := by
  have hobj : (multidayModel series cap init cw ew tv).objective =
      (optimizeModel series cap init cw ew tv).objective := by
    simp [multidayModel, optimizeModel, md_hourCost_eq, md_hourEmissions_eq]
  refine ⟨rfl, rfl, hobj, ?_, ?_⟩
  · simp [multidayModel, optimizeModel, md_loopConstraints_eq]
  · unfold optimize_multiday_energy_mix optimize_energy_mix
    by_cases hst : st = SolverStatus.Optimal
    · subst hst
      simp only [md_extractRows_eq, md_total_cost_eq, hobj]
      refine ⟨rfl, rfl, rfl, rfl, rfl, ?_⟩
      rintro rfl
      rfl
    · simp [hst]

/-- Witness for C4 amended with mode off on the one-hour sample. -/
theorem C4_witness :
    (multidayModel sampleSeries 500 250 0.7 0.3 false).constraints =
      (optimizeModel sampleSeries 500 250 0.7 0.3 false).constraints ++
        [ .ge ⟨[(1, .bLevel sampleSeries.length)], 0⟩ ((500 : ℚ) * 0.2),
          .le ⟨[(1, .bLevel sampleSeries.length)], 0⟩ ((500 : ℚ) * 0.8) ] ∧
    (optimize_multiday_energy_mix sampleSeries 500 250 0.7 0.3 false
        (fun _ => (.Optimal, xSample))).total_emissions =
      (optimize_energy_mix sampleSeries 500 250 0.7 0.3 false
        (fun _ => (.Optimal, xSample))).total_emissions := by
  obtain ⟨-, -, -, hcons, -, -, -, -, -, hemis⟩ :=
    C4_parameterized_same_algorithm sampleSeries 500 250 0.7 0.3 false .Optimal xSample
  exact ⟨hcons, hemis rfl⟩

/-- Constraints built by the per-hour loop all hold on the all-zero assignment
when every hour has zero demand and nonnegative availabilities and the
capacity is nonnegative. -/
lemma loopConstraints_holds_zero (cap : ℚ) (hcap : 0 ≤ cap) :
    ∀ (t : ℕ) (l : List HourData),
      (∀ h ∈ l, h.demand = 0 ∧ 0 ≤ h.solar_available ∧ 0 ≤ h.wind_available ∧
        0 ≤ h.hydro_available) →
      ∀ c ∈ loopConstraints cap t l, c.Holds xZero := by
  intro t l
  induction l generalizing t with
  | nil => simp [loopConstraints]
  | cons h rest ih =>
    intro hall c hc
    simp only [loopConstraints, List.mem_append] at hc
    rcases hc with hc | hc
    · obtain ⟨hd, hs, hw, hh⟩ := hall h (List.mem_cons_self h rest)
      have hr : 0 ≤ cap * (0.2 : ℚ) := by positivity
      simp only [hourConstraints, List.mem_cons, List.not_mem_nil, or_false] at hc
      rcases hc with rfl | rfl | rfl | rfl | rfl | rfl | rfl | rfl <;>
        simp [Constr.Holds, AffExpr.eval, xZero, hd, hs, hw, hh, hr]
    · exact ih (t + 1) (fun h2 hmem => hall h2 (List.mem_cons_of_mem h hmem)) c hc

/-- C3 counterexample: a 48-hour (two-day, H > 24) zero-demand series fed to
the single-day optimizer admits the all-zero plan: it is feasible for the
assembled model yet its terminal battery level 0 lies outside the band
[0.2·capacity, 0.8·capacity] = [100, 400].  The terminal band is tied to the
entry point, not to the horizon exceeding 24 hours. -/
theorem C3_counterexample :
    zeroSeries48.length = 48 ∧
    (optimizeModel zeroSeries48 500 0 0.7 0.3 true).Feasible xZero ∧
    ¬ ((500 : ℚ) * 0.2 ≤ xZero (.bLevel 48)) := by
  refine ⟨by decide, ⟨?_, ?_, ?_⟩, by norm_num [xZero]⟩
  · intro c hc
    simp only [optimizeModel, List.mem_cons] at hc
    rcases hc with rfl | hc
    · simp [Constr.Holds, AffExpr.eval, xZero]
    · refine loopConstraints_holds_zero 500 (by norm_num) 0 zeroSeries48 ?_ c hc
      intro h hmem
      simp only [zeroSeries48] at hmem
      rw [List.eq_of_mem_replicate hmem]
      norm_num
  · intro t ht
    simp [xZero]
  · intro t ht
    simp only [optimizeModel]
    norm_num [xZero]

/-- C3 amended: the terminal band is imposed by the multi-day entry point for
every horizon (including exactly 24), and never by the single-day entry point
(even beyond 24 hours, as the counterexample shows): every assignment feasible
for the multi-day model ends inside [0.2·capacity, 0.8·capacity]. -/
theorem C3_terminal_band_multiday (series : List HourData) (cap init cw ew : ℚ)
    (tv : Bool) (x : Var → ℚ)
    (hx : (multidayModel series cap init cw ew tv).Feasible x) :
    cap * 0.2 ≤ x (.bLevel series.length) ∧ x (.bLevel series.length) ≤ cap * 0.8 := by
  have hmem1 : (Constr.ge ⟨[(1, .bLevel series.length)], 0⟩ (cap * 0.2)) ∈
      (multidayModel series cap init cw ew tv).constraints := by
    simp [multidayModel]
  have hmem2 : (Constr.le ⟨[(1, .bLevel series.length)], 0⟩ (cap * 0.8)) ∈
      (multidayModel series cap init cw ew tv).constraints := by
    simp [multidayModel]
  have h1 := hx.1 _ hmem1
  have h2 := hx.1 _ hmem2
  simp only [Constr.Holds, AffExpr.eval, List.map_cons, List.map_nil, List.sum_cons,
    List.sum_nil, one_mul, add_zero] at h1 h2
  exact ⟨h1, h2⟩

/-- Witness for C3 amended: a one-hour multi-day model with a constant
half-full battery trajectory is feasible and its final level 250 lies inside
the band [100, 400]. -/
theorem C3_witness :
    (multidayModel calmSeries 500 250 0.7 0.3 true).Feasible xHold ∧
    ((500 : ℚ) * 0.2 ≤ xHold (.bLevel calmSeries.length) ∧
      xHold (.bLevel calmSeries.length) ≤ (500 : ℚ) * 0.8) := by
  have hfeas : (multidayModel calmSeries 500 250 0.7 0.3 true).Feasible xHold := by
    refine ⟨?_, ?_, ?_⟩
    · intro c hc
      simp only [multidayModel, calmSeries, md_loopConstraints, md_hourConstraints,
        List.mem_append, List.mem_cons, List.not_mem_nil, or_false] at hc
      rcases hc with (rfl | rfl | rfl | rfl | rfl | rfl | rfl | rfl | rfl) | (rfl | rfl) <;>
        norm_num [Constr.Holds, AffExpr.eval, xHold]
    · intro t ht
      simp [xHold]
    · intro t ht
      simp only [multidayModel]
      norm_num [xHold]
  exact ⟨hfeas,
    C3_terminal_band_multiday calmSeries 500 250 0.7 0.3 true xHold hfeas⟩

/-- C9: in a price-sensitivity sweep, a failed optimizer run is local to its
scenario: the optimized-results list is exactly the per-multiplier entries of
the scenarios whose optimizer run succeeded (failed ones are omitted), while
one greedy entry is recorded for every multiplier unconditionally and one
scenario record is produced per multiplier — the sweep never aborts. -/
theorem C9_sweep_isolates_failures (series : List HourData) (cap init cw ew : ℚ)
    (ms : List ℚ) (tv : Bool) (solve : Solver) :
    (run_price_sensitivity series cap init cw ew ms tv solve).scenarios.length = ms.length ∧
    (run_price_sensitivity series cap init cw ew ms tv solve).greedy =
      ms.map (fun m =>
        ⟨m, (greedy_energy_mix (scaleSeries series m) cap init).total_cost,
            (greedy_energy_mix (scaleSeries series m) cap init).total_emissions,
            (greedy_energy_mix (scaleSeries series m) cap init).total_unmet⟩) ∧
    (run_price_sensitivity series cap init cw ew ms tv solve).optimized =
      (ms.filter (fun m =>
        (optimize_energy_mix (scaleSeries series m) cap init cw ew tv solve).error.isNone)).map
        (fun m =>
          ⟨m, (optimize_energy_mix (scaleSeries series m) cap init cw ew tv solve).total_cost,
              (optimize_energy_mix (scaleSeries series m) cap init cw ew tv solve).total_emissions,
              (optimize_energy_mix (scaleSeries series m) cap init cw ew tv solve).total_unmet⟩) := by
  unfold run_price_sensitivity
  induction ms with
  | nil => exact ⟨rfl, rfl, rfl⟩
  | cons m rest ih =>
    obtain ⟨ih1, ih2, ih3⟩ := ih
    refine ⟨?_, ?_, ?_⟩
    · simp only [sensLoop, List.length_cons, ih1]
    · simp only [sensLoop, List.map_cons, ih2]
    · by_cases he :
        (optimize_energy_mix (scaleSeries series m) cap init cw ew tv solve).error = none
      · simp only [sensLoop, ih3, he, if_true, List.filter_cons, Option.isNone_none,
          List.map_cons, List.singleton_append, eq_self_iff_true]
        try simp [he]
      · simp only [sensLoop, ih3, he, if_false, List.filter_cons, List.nil_append]
        simp [he, Option.isNone_iff_eq_none]

/-- Rows of the greedy loop satisfy the exact hourly demand balance, for
arbitrary inputs. -/
lemma greedyRows_balance (cap : ℚ) :
    ∀ (level : ℚ) (t : ℕ) (series : List HourData),
      List.Forall₂ (fun h r =>
        r.solar_use + r.wind_use + r.hydro_use + r.battery_discharge - r.battery_charge +
          r.unmet_demand = h.demand) series (greedyRows cap level t series) := by
  intro level t series
  induction series generalizing level t with
  | nil => exact List.Forall₂.nil
  | cons h rest ih =>
    simp only [greedyRows]
    exact List.Forall₂.cons (Greedy.step_balance cap level h) (ih _ _)

/-- Any assignment satisfying the per-hour constraint blocks satisfies the
extracted hourly demand balance exactly. -/
lemma extractRows_balance (cap : ℚ) (x : Var → ℚ) :
    ∀ (t : ℕ) (series : List HourData),
      (∀ c ∈ loopConstraints cap t series, c.Holds x) →
      List.Forall₂ (fun h r =>
        r.solar_use + r.wind_use + r.hydro_use + r.battery_discharge - r.battery_charge +
          r.unmet_demand = h.demand) series (extractRows x t series) := by
  intro t series
  induction series generalizing t with
  | nil => exact fun _ => List.Forall₂.nil
  | cons h rest ih =>
    intro hc
    simp only [extractRows]
    refine List.Forall₂.cons ?_ (ih (t + 1) ?_)
    · have hd := hc (Constr.eq ⟨[(1, .solar t), (1, .wind t), (1, .hydro t),
        (1, .bDischarge t), (-1, .bCharge t), (1, .unmet t)], 0⟩ h.demand)
        (by simp [loopConstraints, hourConstraints])
      simp only [Constr.Holds, AffExpr.eval, List.map_cons, List.map_nil, List.sum_cons,
        List.sum_nil] at hd
      dsimp only
      linarith
    · intro c hcm
      refine hc c ?_
      simp only [loopConstraints, List.mem_append]
      exact Or.inr hcm

/-- Per-hour bound invariants of the greedy rows, carrying the battery level
inside [0, capacity] across the loop. -/
lemma greedyRows_bounds (cap : ℚ) (hcap : 0 ≤ cap) :
    ∀ (level : ℚ) (t : ℕ) (series : List HourData),
      0 ≤ level → level ≤ cap →
      (∀ h ∈ series, 0 ≤ h.demand ∧ 0 ≤ h.solar_available ∧ 0 ≤ h.wind_available ∧
        0 ≤ h.hydro_available) →
      List.Forall₂ (fun h r =>
        r.solar_use ≤ h.solar_available ∧ r.wind_use ≤ h.wind_available ∧
        r.hydro_use ≤ h.hydro_available ∧
        r.battery_charge ≤ cap * 0.2 ∧ r.battery_discharge ≤ cap * 0.2 ∧
        0 ≤ r.battery_level ∧ r.battery_level ≤ cap ∧
        (0 < r.unmet_demand →
          r.solar_use = h.solar_available ∧ r.wind_use = h.wind_available ∧
          r.hydro_use = h.hydro_available ∧
          r.battery_discharge = min (cap * 0.2) (r.battery_level + r.battery_discharge)))
        series (greedyRows cap level t series) := by
  intro level t series
  induction series generalizing level t with
  | nil => exact fun _ _ _ => List.Forall₂.nil
  | cons h rest ih =>
    intro hlev hlc hall
    obtain ⟨hd, hs, hw, hh⟩ := hall h (List.mem_cons_self h rest)
    simp only [greedyRows, greedyStep]
    refine List.Forall₂.cons ?_
      (ih _ _ (Greedy.level2_nonneg h hcap hlev hlc) (Greedy.level2_le_cap h hcap hlev hlc)
        (fun g hg => hall g (List.mem_cons_of_mem h hg)))
    refine ⟨Greedy.solarUse2_le_avail cap level h, Greedy.windUse2_le_avail cap level h hw,
      Greedy.hydroUse2_le_avail cap level h hh,
      Greedy.charge_le_maxRate level h hcap, Greedy.discharge_le_maxRate level h hcap,
      Greedy.level2_nonneg h hcap hlev hlc, Greedy.level2_le_cap h hcap hlev hlc, ?_⟩
    intro hu
    obtain ⟨h1, h2, h3, h4, h5⟩ := Greedy.unmet_pos_saturated cap level h hu
    refine ⟨h1, h2, h3, ?_⟩
    have hl2 : Greedy.level2 cap level h + Greedy.discharge cap level h = level := by
      unfold Greedy.level2 Greedy.level1
      rw [h4]
      ring
    rw [hl2]
    exact h5

/-- C5: under nonnegative demand and availabilities and an initial charge in
[0, capacity], the greedy dispatcher never exceeds a ceiling: reported uses
(after the proportional reattribution) stay within availability, charge and
discharge within max_rate = 0.2·capacity, the carried battery level within
[0, capacity]; and a positive unmet_demand occurs only with all three sources
saturated and the discharge equal to min(max_rate, level entering the hour) —
the entering level being the recorded level plus the discharge, since no
charging happens in such an hour. -/
theorem C5_greedy_ceilings (series : List HourData) (cap init : ℚ)
    (hall : ∀ h ∈ series, 0 ≤ h.demand ∧ 0 ≤ h.solar_available ∧ 0 ≤ h.wind_available ∧
      0 ≤ h.hydro_available)
    (h0 : 0 ≤ init) (h1 : init ≤ cap) :
    List.Forall₂ (fun h r =>
      r.solar_use ≤ h.solar_available ∧ r.wind_use ≤ h.wind_available ∧
      r.hydro_use ≤ h.hydro_available ∧
      r.battery_charge ≤ cap * 0.2 ∧ r.battery_discharge ≤ cap * 0.2 ∧
      0 ≤ r.battery_level ∧ r.battery_level ≤ cap ∧
      (0 < r.unmet_demand →
        r.solar_use = h.solar_available ∧ r.wind_use = h.wind_available ∧
        r.hydro_use = h.hydro_available ∧
        r.battery_discharge = min (cap * 0.2) (r.battery_level + r.battery_discharge)))
      series (greedy_energy_mix series cap init).hours :=
  greedyRows_bounds cap (le_trans h0 h1) init 0 series h0 h1 hall

/-- Witness for C5 on a one-hour series with demand 5 met from 10 units of
solar, battery half charged. -/
theorem C5_witness :
    ((∀ h ∈ c5Series, 0 ≤ h.demand ∧ 0 ≤ h.solar_available ∧ 0 ≤ h.wind_available ∧
        0 ≤ h.hydro_available) ∧
      (0 : ℚ) ≤ 250 ∧ (250 : ℚ) ≤ 500) ∧
    List.Forall₂ (fun h r =>
      r.solar_use ≤ h.solar_available ∧ r.wind_use ≤ h.wind_available ∧
      r.hydro_use ≤ h.hydro_available ∧
      r.battery_charge ≤ 500 * 0.2 ∧ r.battery_discharge ≤ 500 * 0.2 ∧
      0 ≤ r.battery_level ∧ r.battery_level ≤ 500 ∧
      (0 < r.unmet_demand →
        r.solar_use = h.solar_available ∧ r.wind_use = h.wind_available ∧
        r.hydro_use = h.hydro_available ∧
        r.battery_discharge = min (500 * 0.2) (r.battery_level + r.battery_discharge)))
      c5Series (greedy_energy_mix c5Series 500 250).hours :=
  ⟨⟨by decide, by decide, by decide⟩,
   C5_greedy_ceilings c5Series 500 250 (by decide) (by decide) (by decide)⟩

/-- C6: the hourly demand balance solar_use + wind_use + hydro_use +
battery_discharge - battery_charge + unmet_demand = demand holds exactly for
every hour of a greedy plan (after the proportional reattribution), and for
every hour of an optimal optimizer plan whose solver solution satisfies the
model constraints it holds exactly — in particular within the 1e-6 solver
tolerance. -/
theorem C6_hourly_demand_balance (series : List HourData) (gcap ginit : ℚ)
    (cap init cw ew : ℚ) (tv : Bool) (solve : Solver) (x : Var → ℚ)
    (hsol : solve (optimizeModel series cap init cw ew tv) = (.Optimal, x))
    (hx : (optimizeModel series cap init cw ew tv).Feasible x) :
    List.Forall₂ (fun h r =>
      r.solar_use + r.wind_use + r.hydro_use + r.battery_discharge - r.battery_charge +
        r.unmet_demand = h.demand)
      series (greedy_energy_mix series gcap ginit).hours ∧
    List.Forall₂ (fun h r =>
      r.solar_use + r.wind_use + r.hydro_use + r.battery_discharge - r.battery_charge +
        r.unmet_demand = h.demand ∧
      |r.solar_use + r.wind_use + r.hydro_use + r.battery_discharge - r.battery_charge +
        r.unmet_demand - h.demand| ≤ 1 / 1000000)
      series (optimize_energy_mix series cap init cw ew tv solve).hours := by
  constructor
  · exact greedyRows_balance gcap ginit 0 series
  · have hrows : (optimize_energy_mix series cap init cw ew tv solve).hours =
        extractRows x 0 series := by
      rw [optimize_success_def series cap init cw ew tv solve (by rw [hsol])]
      rw [hsol]
    rw [hrows]
    have hloop : ∀ c ∈ loopConstraints cap 0 series, c.Holds x := by
      intro c hcm
      refine hx.1 c ?_
      simp only [optimizeModel]
      exact List.mem_cons_of_mem _ hcm
    refine List.Forall₂.imp ?_ (extractRows_balance cap x 0 series hloop)
    intro a b hab
    refine ⟨hab, ?_⟩
    rw [hab, sub_self, abs_zero]
    norm_num

/-- Witness for C6 on the one-hour sample with its optimal solver outcome. -/
theorem C6_witness :
    (oracleSample (optimizeModel sampleSeries 500 0 0.7 0.3 true) = (.Optimal, xSample) ∧
     (optimizeModel sampleSeries 500 0 0.7 0.3 true).Feasible xSample) ∧
    (List.Forall₂ (fun h r =>
      r.solar_use + r.wind_use + r.hydro_use + r.battery_discharge - r.battery_charge +
        r.unmet_demand = h.demand)
      sampleSeries (greedy_energy_mix sampleSeries 500 250).hours ∧
    List.Forall₂ (fun h r =>
      r.solar_use + r.wind_use + r.hydro_use + r.battery_discharge - r.battery_charge +
        r.unmet_demand = h.demand ∧
      |r.solar_use + r.wind_use + r.hydro_use + r.battery_discharge - r.battery_charge +
        r.unmet_demand - h.demand| ≤ 1 / 1000000)
      sampleSeries (optimize_energy_mix sampleSeries 500 0 0.7 0.3 true oracleSample).hours) :=
  ⟨⟨rfl, sampleModel_feasible⟩,
   C6_hourly_demand_balance sampleSeries 500 250 500 0 0.7 0.3 true oracleSample xSample rfl
     sampleModel_feasible⟩

end EnerJee
